import Mathlib

/-!
Verification of the `pysmartsocket` smart-socket client against its
specification.  The repository ships only the example driver script
`examples/smartsocket-client.py`; the library it exercises (the
`SmartSocketClient` facade, the connection manager and the wire codec)
is not part of the sources, so those components are modelled here
directly from the specification text.  The example script itself is
embedded verbatim as a list of actions.
-/

/-- Modelled from the spec: the `ClientState` enumerated variant
{Disconnected, Connecting, Connected, Failed} owned by the Client
Facade of the missing `pysmartsocket` library. -/
inductive ClientState
  | disconnected
  | connecting
  | connected
  | failed
  deriving DecidableEq

/-- Modelled from the spec: the `DeviceState` enumerated variant
{Unknown, On, Off} of the missing `pysmartsocket` library. -/
inductive DeviceState
  | unknown
  | on
  | off
  deriving DecidableEq

/-- Modelled from the spec: the closed command set
{CONNECT_HANDSHAKE, SWITCH_ON, SWITCH_OFF, STATUS_QUERY} handled by the
wire codec of the missing `pysmartsocket` library. -/
inductive Command
  | connectHandshake
  | switchOn
  | switchOff
  | statusQuery
  deriving DecidableEq

/-- Modelled from the spec: `ConfigError` (bad input, no I/O attempted). -/
inductive ConfigError
  | invalidAddress
  deriving DecidableEq

/-- Modelled from the spec: `ConnectError{Timeout|Refused|Unreachable|InvalidEndpoint|HandshakeFailed}`. -/
inductive ConnectError
  | timeout
  | refused
  | unreachable
  | invalidEndpoint
  | handshakeFailed
  deriving DecidableEq

/-- Modelled from the spec: `IOError{Closed|Timeout|Corrupt}`
(post-connection transport failures of the missing library). -/
inductive IOError
  | closed
  | timeout
  | corrupt
  deriving DecidableEq

/-- Modelled from the spec: `StateError` (protocol misuse, e.g.
commanding while disconnected). -/
inductive StateError
  | notConnected
  deriving DecidableEq

/-- Modelled from the spec: the union of the typed failures the Client
Facade can surface to its caller. -/
inductive ClientError
  | config (e : ConfigError)
  | conn (e : ConnectError)
  | io (e : IOError)
  | state (e : StateError)
  deriving DecidableEq

/-- Modelled from the spec: a response frame carries at minimum a
success/failure indicator and, for STATUS_QUERY/handshake, the device
power state. -/
inductive Response
  | ackOk
  | ackErr
  | stateReport (ds : DeviceState)
  deriving DecidableEq

/-- Modelled from the spec: `DecodeError` raised by the wire codec on
malformed, truncated, or unrecognized-opcode buffers. -/
inductive DecodeError
  | truncated
  | malformed
  | unrecognizedOpcode
  deriving DecidableEq

/-- Modelled from the spec: an `Endpoint` is a semantic (host, port)
pair parsed from a single "host:port" string. -/
structure Endpoint where
  host : List Char
  port : Nat
  deriving DecidableEq

/-- Modelled from the spec: splitting the address characters at the
`:` separators, the helper the endpoint parser of the missing library
needs. -/
def splitOnColon : List Char → List (List Char)
  | [] => [[]]
  | c :: rest =>
    let r := splitOnColon rest
    if c = ':' then [] :: r
    else
      match r with
      | [] => [[c]]
      | g :: gs => (c :: g) :: gs

/-- Modelled from the spec: reading a non-empty all-digit character
sequence as a decimal number, for the port component. -/
def digitsToNat (cs : List Char) : Option Nat :=
  if !cs.isEmpty && cs.all Char.isDigit then
    some (cs.foldl (fun a c => a * 10 + (c.toNat - 48)) 0)
  else none

/-- Modelled from the spec: the address format is
"<ipv4-or-hostname>:<port>"; invalid formats are rejected.  The parser
requires exactly one `:`, a non-empty host and a decimal port below
65536. -/
def parseEndpoint (s : String) : Option Endpoint :=
  match splitOnColon s.data with
  | [h, p] =>
    if h.isEmpty then none
    else
      match digitsToNat p with
      | some n => if n < 65536 then some ⟨h, n⟩ else none
      | none => none
  | _ => none

/-- Modelled from the spec: the opcode byte assigned to each command by
the wire codec of the missing library (one opcode byte per message). -/
def opcodeByte : Command → Nat
  | .connectHandshake => 72
  | .switchOn => 79
  | .switchOff => 70
  | .statusQuery => 81

/-- Modelled from the spec: `encode(command) -> bytes`, a pure function,
total over the command enum, with deterministic output; frames are
length-prefixed with one opcode byte. -/
def encode (cmd : Command) : List Nat :=
  [1, opcodeByte cmd]

/-- Modelled from the spec: `decode(bytes) -> Response | DecodeError`.
Frames are length-prefixed; the payload starts with one opcode byte
(6 = ack-ok, 21 = ack-error, 83 = state report followed by one state
byte).  A short buffer is `truncated`, a length or payload-shape
mismatch is `malformed`, an unknown opcode is `unrecognizedOpcode`. -/
def decode (buf : List Nat) : Except DecodeError Response :=
  match buf with
  | [] => .error .truncated
  | len :: payload =>
    if payload.length < len then .error .truncated
    else if len < payload.length then .error .malformed
    else
      match payload with
      | [] => .error .truncated
      | op :: args =>
        if op = 6 then
          if args.isEmpty then .ok .ackOk else .error .malformed
        else if op = 21 then
          if args.isEmpty then .ok .ackErr else .error .malformed
        else if op = 83 then
          match args with
          | [b] =>
            if b = 0 then .ok (.stateReport .unknown)
            else if b = 1 then .ok (.stateReport .on)
            else if b = 2 then .ok (.stateReport .off)
            else .error .malformed
          | _ => .error .malformed
        else .error .unrecognizedOpcode

/-- Modelled from the spec: the frames the codec accepts, stated
independently of `decode` for comparison: the two bare acknowledgments
and the three one-byte state reports. -/
def wellFormedFrame (buf : List Nat) : Bool :=
  buf = [1, 6] || buf = [1, 21] ||
  buf = [2, 83, 0] || buf = [2, 83, 1] || buf = [2, 83, 2]

/-- Modelled from the spec: the observable state of the missing
`SmartSocketClient` facade object: its `ClientState` and the last-known
`DeviceState`. -/
structure SmartSocketClient where
  state : ClientState
  device : DeviceState
  deriving DecidableEq

instance {ε α : Type} [DecidableEq ε] [DecidableEq α] : DecidableEq (Except ε α)
  | .ok a, .ok b => if h : a = b then .isTrue (by rw [h]) else .isFalse (by simp [h])
  | .ok _, .error _ => .isFalse (by simp)
  | .error _, .ok _ => .isFalse (by simp)
  | .error e, .error f => if h : e = f then .isTrue (by rw [h]) else .isFalse (by simp [h])

/-- Modelled from the spec: the result of one facade call: the client
afterwards, the commands put on the wire during the call, the
`ClientState` values entered during the call (in order), and the call
outcome. -/
structure CallResult where
  client : SmartSocketClient
  wire : List Command
  visited : List ClientState
  outcome : Except ClientError Unit
  deriving DecidableEq

/-- Modelled from the spec: `SmartSocketClient()` creates an instance
in Disconnected/Unknown state with no side effects (no network activity
at construction), so the construction wire trace is empty. -/
def SmartSocketClient.new : CallResult :=
  ⟨⟨.disconnected, .unknown⟩, [], [], .ok ()⟩

/-- Modelled from the spec: the commands a failing dial puts on the
wire: only a handshake failure happens after the TCP connect, the other
dial failures occur before any byte is written. -/
def dialWire : ConnectError → List Command
  | .handshakeFailed => [.connectHandshake]
  | _ => []

/-- Modelled from the spec: `connect(address)` parses the address
(failing with `ConfigError{InvalidAddress}` before any I/O), moves to
Connecting, dials; on success it moves to Connected with the
handshake-reported device state, on failure it moves to Failed keeping
the last-known device state.  The dial outcome of the absent transport
is passed in explicitly. -/
def SmartSocketClient.connect (c : SmartSocketClient) (addr : String)
    (dial : Except ConnectError DeviceState) : CallResult :=
  match parseEndpoint addr with
  | none => ⟨c, [], [], .error (.config .invalidAddress)⟩
  | some _ =>
    match dial with
    | .ok ds =>
      ⟨⟨.connected, ds⟩, [.connectHandshake], [.connecting, .connected], .ok ()⟩
    | .error e =>
      ⟨⟨.failed, c.device⟩, dialWire e, [.connecting, .failed], .error (.conn e)⟩

/-- Modelled from the spec: issuing one device command through the
facade: requires Connected (else `StateError{NotConnected}` with
nothing written), writes the command; a response updates the device
state to the acknowledged value, an `IOError` moves the client to
Failed keeping the last-known device state and propagates the error.
The send outcome of the absent transport is passed in explicitly. -/
def SmartSocketClient.sendCommand (c : SmartSocketClient) (cmd : Command)
    (ack : DeviceState) (resp : Except IOError Response) : CallResult :=
  if c.state = .connected then
    match resp with
    | .ok _ => ⟨⟨.connected, ack⟩, [cmd], [], .ok ()⟩
    | .error e => ⟨⟨.failed, c.device⟩, [cmd], [.failed], .error (.io e)⟩
  else ⟨c, [], [], .error (.state .notConnected)⟩

/-- Modelled from the spec: `switch_on()` sends SWITCH_ON and on
success records the device as On. -/
def SmartSocketClient.switch_on (c : SmartSocketClient)
    (resp : Except IOError Response) : CallResult :=
  c.sendCommand .switchOn .on resp

/-- Modelled from the spec: `switch_off()` sends SWITCH_OFF and on
success records the device as Off. -/
def SmartSocketClient.switch_off (c : SmartSocketClient)
    (resp : Except IOError Response) : CallResult :=
  c.sendCommand .switchOff .off resp

/-- Modelled from the spec: `disconnect()` closes the connection,
resets ClientState to Disconnected and DeviceState to Unknown, and is
safe to call even if never connected. -/
def SmartSocketClient.disconnect (_c : SmartSocketClient) : CallResult :=
  ⟨⟨.disconnected, .unknown⟩, [], [.disconnected], .ok ()⟩

/-- Modelled from the spec: the deterministic human-readable rendering
of a `ClientState`. -/
def clientStateStr : ClientState → String
  | .disconnected => "Disconnected"
  | .connecting => "Connecting"
  | .connected => "Connected"
  | .failed => "Failed"

/-- Modelled from the spec: the deterministic human-readable rendering
of a `DeviceState`. -/
def deviceStateStr : DeviceState → String
  | .unknown => "Unknown"
  | .on => "On"
  | .off => "Off"

/-- Modelled from the spec: the string representation used by the
script's print calls, e.g. `Client(state=Connected, device=On)`. -/
def SmartSocketClient.str (c : SmartSocketClient) : String :=
  "Client(state=" ++ clientStateStr c.state ++ ", device=" ++
    deviceStateStr c.device ++ ")"

/-- Modelled from the spec: the sequence of client states observed by
the example script's four print calls when run against a responsive
test double: after construction, after `connect("127.0.0.1:55333")`
whose handshake reports `hs`, after `switch_on()` answered by `r1`, and
after `switch_off()` answered by `r2`. -/
def scriptObservations (hs : DeviceState) (r1 r2 : Except IOError Response) :
    List SmartSocketClient :=
  let c0 := SmartSocketClient.new.client
  let s1 := c0.connect "127.0.0.1:55333" (.ok hs)
  let s2 := s1.client.switch_on r1
  let s3 := s2.client.switch_off r2
  [c0, s1.client, s2.client, s3.client]

/-- One step of `examples/smartsocket-client.py`: a client action or a
print of the client. -/
inductive ScriptAction
  | construct
  | printClient
  | callConnect (addr : String)
  | callSwitchOn
  | callSwitchOff
  | callDisconnect
  deriving DecidableEq

/-- The `__main__` block of `examples/smartsocket-client.py`, line by
line: construct, print, connect to "127.0.0.1:55333", print, switch on,
print, switch off, print. -/
def scriptMain : List ScriptAction :=
  [ .construct, .printClient,
    .callConnect "127.0.0.1:55333", .printClient,
    .callSwitchOn, .printClient,
    .callSwitchOff, .printClient ]

/-- Whether a script action constructs a client. -/
def isConstruct : ScriptAction → Bool
  | .construct => true
  | _ => false

/-- Whether a script action is a `connect` call. -/
def isConnectCall : ScriptAction → Bool
  | .callConnect _ => true
  | _ => false

/-- Whether a script action issues a device command. -/
def isCommandCall : ScriptAction → Bool
  | .callSwitchOn => true
  | .callSwitchOff => true
  | _ => false

theorem decode_ok_frames (buf : List Nat) (r : Response) (h : decode buf = .ok r) :
    wellFormedFrame buf = true := by
  unfold decode at h
  repeat' split at h
  all_goals simp_all [wellFormedFrame]
  all_goals omega

/-- C1: on a healthy connection the script observes exactly
Disconnected/Unknown, Connected with the handshake-reported state,
Connected/On, Connected/Off — the On acknowledgment is never skipped —
and the printed representations match the spec's strings. -/
theorem script_scenario_states (hs : DeviceState) (a1 a2 : Response) :
    scriptObservations hs (.ok a1) (.ok a2) =
      [⟨.disconnected, .unknown⟩, ⟨.connected, hs⟩,
       ⟨.connected, .on⟩, ⟨.connected, .off⟩] ∧
    (scriptObservations .unknown (.ok a1) (.ok a2)).map SmartSocketClient.str =
      ["Client(state=Disconnected, device=Unknown)",
       "Client(state=Connected, device=Unknown)",
       "Client(state=Connected, device=On)",
       "Client(state=Connected, device=Off)"] :=
  ⟨rfl, rfl⟩

/-- C2: a command issued while not Connected fails with
StateError NotConnected, writes nothing on the wire, and leaves the
client (in particular its DeviceState) unchanged. -/
theorem command_not_connected_fails (c : SmartSocketClient)
    (resp : Except IOError Response) (h : c.state ≠ .connected) :
    c.switch_on resp = ⟨c, [], [], .error (.state .notConnected)⟩ ∧
    c.switch_off resp = ⟨c, [], [], .error (.state .notConnected)⟩ := by
  simp [SmartSocketClient.switch_on, SmartSocketClient.switch_off,
    SmartSocketClient.sendCommand, h]

theorem command_not_connected_fails_witness :
    (⟨.disconnected, .unknown⟩ : SmartSocketClient).state ≠ .connected ∧
    SmartSocketClient.switch_on ⟨.disconnected, .unknown⟩ (.ok .ackOk) =
      ⟨⟨.disconnected, .unknown⟩, [], [], .error (.state .notConnected)⟩ :=
  ⟨by decide,
   (command_not_connected_fails ⟨.disconnected, .unknown⟩ (.ok .ackOk) (by decide)).1⟩

/-- C3: a malformed address makes connect fail with
ConfigError InvalidAddress, with no wire activity, the client unchanged
and the Connecting state never entered. -/
theorem connect_invalid_address (c : SmartSocketClient) (addr : String)
    (dial : Except ConnectError DeviceState) (h : parseEndpoint addr = none) :
    c.connect addr dial = ⟨c, [], [], .error (.config .invalidAddress)⟩ ∧
    ClientState.connecting ∉ (c.connect addr dial).visited := by
  simp [SmartSocketClient.connect, h]

theorem connect_invalid_address_witness :
    parseEndpoint "not-an-address" = none ∧
    SmartSocketClient.connect ⟨.disconnected, .unknown⟩ "not-an-address" (.ok .unknown) =
      ⟨⟨.disconnected, .unknown⟩, [], [], .error (.config .invalidAddress)⟩ :=
  ⟨by decide,
   (connect_invalid_address ⟨.disconnected, .unknown⟩ "not-an-address"
     (.ok .unknown) (by decide)).1⟩

/-- C4: the constructor yields a Disconnected/Unknown client with no
wire activity and no failure. -/
theorem constructor_contract :
    SmartSocketClient.new.client = ⟨.disconnected, .unknown⟩ ∧
    SmartSocketClient.new.wire = [] ∧
    SmartSocketClient.new.visited = [] ∧
    SmartSocketClient.new.outcome = .ok () :=
  ⟨rfl, rfl, rfl, rfl⟩

/-- C5: for every valid address, connect followed by an immediate
disconnect returns the client to exactly Disconnected/Unknown,
whatever the dial outcome was. -/
theorem connect_disconnect_roundtrip (c : SmartSocketClient) (addr : String)
    (ep : Endpoint) (dial : Except ConnectError DeviceState)
    (_h : parseEndpoint addr = some ep) :
    ((c.connect addr dial).client.disconnect).client = ⟨.disconnected, .unknown⟩ :=
  rfl

theorem connect_disconnect_roundtrip_witness :
    parseEndpoint "127.0.0.1:55333" = some ⟨"127.0.0.1".data, 55333⟩ ∧
    ((SmartSocketClient.connect ⟨.disconnected, .unknown⟩ "127.0.0.1:55333"
        (.ok .on)).client.disconnect).client = ⟨.disconnected, .unknown⟩ :=
  ⟨by decide,
   connect_disconnect_roundtrip ⟨.disconnected, .unknown⟩ "127.0.0.1:55333"
     ⟨"127.0.0.1".data, 55333⟩ (.ok .on) (by decide)⟩

/-- C6: disconnect never fails and calling it twice produces exactly
the same call result as calling it once, from any client state. -/
theorem disconnect_idempotent (c : SmartSocketClient) :
    c.disconnect.outcome = .ok () ∧
    (c.disconnect.client).disconnect = c.disconnect :=
  ⟨rfl, rfl⟩

/-- C7: a send failing with an IOError leaves the device state at its
last known value, moves the client to Failed and propagates the error;
every further command fails with StateError NotConnected until a
reconnect succeeds, after which a command succeeds again. -/
theorem failed_send_requires_reconnect (c : SmartSocketClient) (e : IOError)
    (h : c.state = .connected) :
    ((c.switch_on (.error e)).client.device = c.device ∧
     (c.switch_on (.error e)).client.state = .failed ∧
     (c.switch_on (.error e)).outcome = .error (.io e)) ∧
    ((c.switch_off (.error e)).client.device = c.device ∧
     (c.switch_off (.error e)).client.state = .failed ∧
     (c.switch_off (.error e)).outcome = .error (.io e)) ∧
    (∀ resp : Except IOError Response,
      ((c.switch_on (.error e)).client.switch_on resp).outcome =
        .error (.state .notConnected) ∧
      ((c.switch_on (.error e)).client.switch_off resp).outcome =
        .error (.state .notConnected)) ∧
    (∀ addr : String, ∀ ep : Endpoint, ∀ hs : DeviceState,
      parseEndpoint addr = some ep →
      ((c.switch_on (.error e)).client.connect addr (.ok hs)).client.state =
        .connected ∧
      ∀ a : Response,
        (((c.switch_on (.error e)).client.connect addr
            (.ok hs)).client.switch_on (.ok a)).outcome = .ok ()) := by
  obtain ⟨st, dv⟩ := c
  cases h
  refine ⟨⟨rfl, rfl, rfl⟩, ⟨rfl, rfl, rfl⟩, fun resp => ⟨rfl, rfl⟩, ?_⟩
  intro addr ep hs hp
  simp [SmartSocketClient.switch_on, SmartSocketClient.sendCommand,
    SmartSocketClient.connect, hp]

theorem failed_send_requires_reconnect_witness :
    (⟨.connected, .on⟩ : SmartSocketClient).state = .connected ∧
    (SmartSocketClient.switch_on ⟨.connected, .on⟩ (.error .timeout)).client.state =
      .failed ∧
    (SmartSocketClient.switch_on ⟨.connected, .on⟩ (.error .timeout)).client.device =
      DeviceState.on :=
  ⟨rfl,
   (failed_send_requires_reconnect ⟨.connected, .on⟩ .timeout rfl).1.2.1,
   (failed_send_requires_reconnect ⟨.connected, .on⟩ .timeout rfl).1.1⟩

/-- C8: every buffer that is not a well-formed frame — malformed,
truncated, or carrying an unrecognized opcode — is rejected by the pure
function decode with a DecodeError instead of a Response. -/
theorem decode_rejects_bad_frames (buf : List Nat)
    (h : wellFormedFrame buf = false) :
    ∃ e : DecodeError, decode buf = .error e := by
  cases hd : decode buf with
  | error e => exact ⟨e, rfl⟩
  | ok r => exact absurd (decode_ok_frames buf r hd) (by simp [h])

theorem decode_rejects_bad_frames_witness :
    wellFormedFrame [1, 7] = false ∧ decode [1, 7] = .error .unrecognizedOpcode ∧
    ∃ e : DecodeError, decode [1, 7] = .error e :=
  ⟨by decide, by decide, decode_rejects_bad_frames [1, 7] (by decide)⟩

/-- C9: encode is total over the command enum — every command yields a
non-empty sequence of bytes below 256 — and, being a function, its
output on equal commands is identical. -/
theorem encode_total (cmd : Command) :
    encode cmd ≠ [] ∧ (encode cmd).all (· < 256) = true ∧
    encode cmd = encode cmd := by
  cases cmd <;> exact ⟨by decide, by decide, rfl⟩

/-- C10: the script's main block constructs exactly one client, calls
connect exactly once and with the literal "127.0.0.1:55333", issues no
command before that connect call, never calls disconnect, and performs
exactly the sequence construct, print, connect, print, switch on,
print, switch off, print — a print after each step. -/
theorem script_main_properties :
    scriptMain =
      [ .construct, .printClient,
        .callConnect "127.0.0.1:55333", .printClient,
        .callSwitchOn, .printClient,
        .callSwitchOff, .printClient ] ∧
    (scriptMain.filter isConstruct).length = 1 ∧
    scriptMain.filter isConnectCall = [.callConnect "127.0.0.1:55333"] ∧
    ScriptAction.callDisconnect ∉ scriptMain ∧
    (scriptMain.takeWhile (fun a => !isConnectCall a)).filter isCommandCall = [] ∧
    scriptMain.filter (fun a => !(a = .printClient)) =
      [.construct, .callConnect "127.0.0.1:55333", .callSwitchOn, .callSwitchOff] ∧
    (scriptMain.filter (fun a => a = .printClient)).length = 4 ∧
    scriptMain.length = 8 := by
  decide
